import Mathlib

/-!
Verification of the PyBank mortgage engine.

The Python sources hold two parallel calculator trees:
they are embedded here as two namespaces.

  - namespace Calc   : the tree under src/calculators (with src/models),
  - namespace Pybank : the tree under src/pybank/pybank.

Python floats are modelled as exact rationals, Python ValueError as the
Except String monad carrying the raised message, and the built-in round
(round half to even on the value) as pyRoundInt / round2 below.
-/

namespace PyBank

/-- Python built-in round to the nearest integer, ties going to the even
integer, modelled on exact rationals. -/
def pyRoundInt (q : ℚ) : ℤ :=
  if Int.fract q < 1/2 then ⌊q⌋
  else if 1/2 < Int.fract q then ⌊q⌋ + 1
  else if ⌊q⌋ % 2 = 0 then ⌊q⌋ else ⌊q⌋ + 1

/-- Python round(q, 2): round to two decimal places, ties to even. -/
def round2 (q : ℚ) : ℚ := (pyRoundInt (q * 100) : ℚ) / 100

/-- Immutable loan record, from src/models/Loan.py. -/
structure Loan where
  principal : ℚ
  annual_interest_rate : ℚ
  years : ℤ

/-- Immutable borrower record, from src/pybank/pybank/models/Borrower.py. -/
structure Borrower where
  monthly_income : ℚ
  monthly_debt : ℚ

/-! The tree under src/calculators. -/

namespace Calc

/-- BasicCalculator.multiply from src/calculators/BasicCalculator.py. -/
def multiply (x y : ℚ) : ℚ := x * y

/-- BasicCalculator.divide from src/calculators/BasicCalculator.py. -/
def divide (x y : ℚ) : Except String ℚ :=
  if y = 0 then .error "Cannot divide by zero." else .ok (x / y)

/-- FinancialCalculator.calculate_monthly_interest_rate from
src/calculators/FinancialCalculator.py.  Note: this version performs no
validation of its argument. -/
def calculate_monthly_interest_rate (annual_interest_rate : ℚ) : Except String ℚ :=
  divide annual_interest_rate 12

/-- FinancialCalculator.months_from_years from
src/calculators/FinancialCalculator.py: BasicCalculator.multiply at
integer arguments, with no validation. -/
def months_from_years (years : ℤ) : ℤ := years * 12

/-- MortgageCalculator._validate_loan from
src/calculators/MortgageCalculator.py. -/
def validate_loan (loan : Loan) : Except String Unit :=
  if loan.principal ≤ 0 then .error "Loan principal must be greater than zero."
  else if loan.annual_interest_rate < 0 then .error "Interest rate cannot be negative."
  else if loan.years ≤ 0 then .error "Loan term must be greater than zero."
  else .ok ()

/-- MortgageCalculator.monthly_payment from
src/calculators/MortgageCalculator.py. -/
def monthly_payment (loan : Loan) : Except String ℚ :=
  match validate_loan loan with
  | .error e => .error e
  | .ok _ =>
    match calculate_monthly_interest_rate loan.annual_interest_rate with
    | .error e => .error e
    | .ok monthly_rate =>
      let months := months_from_years loan.years
      if monthly_rate = 0 then
        .ok (round2 (loan.principal / (months : ℚ)))
      else
        match divide (monthly_rate * (1 + monthly_rate) ^ months)
            ((1 + monthly_rate) ^ months - 1) with
        | .error e => .error e
        | .ok multiplier => .ok (round2 (loan.principal * multiplier))

/-- MortgageCalculator.loan_amount from
src/calculators/MortgageCalculator.py. -/
def loan_amount (monthly_payment annual_interest_rate : ℚ) (years : ℤ) :
    Except String ℚ :=
  if monthly_payment ≤ 0 then .error "Monthly payment must be greater than zero."
  else if annual_interest_rate < 0 then .error "Interest rate cannot be negative."
  else if years ≤ 0 then .error "Loan term must be greater than zero."
  else
    match calculate_monthly_interest_rate annual_interest_rate with
    | .error e => .error e
    | .ok monthly_rate =>
      let months := months_from_years years
      if monthly_rate = 0 then
        .ok (round2 (monthly_payment * (months : ℚ)))
      else
        .ok (round2 (monthly_payment * ((1 + monthly_rate) ^ months - 1) /
          (monthly_rate * (1 + monthly_rate) ^ months)))

/-- AffordabilityCalculator.DEFAULT_MAX_DTI from
src/calculators/AffordabilityCalculator.py. -/
def DEFAULT_MAX_DTI : ℚ := 36/100

/-- AffordabilityCalculator._validate_borrower from
src/calculators/AffordabilityCalculator.py. -/
def validate_borrower (borrower : Borrower) : Except String Unit :=
  if borrower.monthly_income ≤ 0 then .error "Monthly income must be greater than zero."
  else if borrower.monthly_debt < 0 then .error "Monthly debt cannot be negative."
  else .ok ()

/-- AffordabilityCalculator.max_monthly_housing_payment from
src/calculators/AffordabilityCalculator.py. -/
def max_monthly_housing_payment (borrower : Borrower) (max_dti : ℚ) :
    Except String ℚ :=
  match validate_borrower borrower with
  | .error e => .error e
  | .ok _ =>
    if ¬ (0 < max_dti ∧ max_dti ≤ 1) then .error "DTI must be between 0 and 1."
    else
      let max_total_debt := borrower.monthly_income * max_dti
      let max_housing_payment := max_total_debt - borrower.monthly_debt
      if max_housing_payment ≤ 0 then
        .error "Borrower cannot afford additional housing payment."
      else .ok (round2 max_housing_payment)

/-- AffordabilityCalculator.max_loan_amount from
src/calculators/AffordabilityCalculator.py. -/
def max_loan_amount (borrower : Borrower) (annual_interest_rate : ℚ)
    (years : ℤ) (max_dti : ℚ) : Except String ℚ :=
  match max_monthly_housing_payment borrower max_dti with
  | .error e => .error e
  | .ok max_payment => loan_amount max_payment annual_interest_rate years

end Calc

/-! The tree under src/pybank/pybank.  Its FinancialCalculator inherits from
a BasicCalculator module that is absent from the source tree; its two
primitives are modelled from the spec below. -/

namespace Pybank

/-- Modelled from the spec: the pybank BasicCalculator module is absent from
the source tree; per spec section 4.1 and the module-level wrapper docstring
in src/pybank/pybank/calculators/FinancialCalculator.py, multiply(x, y)
returns the product of x and y. -/
def multiply (x y : ℚ) : ℚ := x * y

/-- Modelled from the spec: the pybank BasicCalculator module is absent from
the source tree; per spec section 4.1 and the module-level wrapper docstring
in src/pybank/pybank/calculators/FinancialCalculator.py, divide(x, y)
returns x / y and fails with the division error when y is zero.  The error
message is taken from the sibling implementation in
src/calculators/BasicCalculator.py. -/
def divide (x y : ℚ) : Except String ℚ :=
  if y = 0 then .error "Cannot divide by zero." else .ok (x / y)

/-- FinancialCalculator.calculate_monthly_interest_rate from
src/pybank/pybank/calculators/FinancialCalculator.py: rejects negative
rates, then divides by 12. -/
def calculate_monthly_interest_rate (annual_interest_rate : ℚ) : Except String ℚ :=
  if annual_interest_rate < 0 then .error "Interest rate cannot be negative."
  else divide annual_interest_rate 12

/-- FinancialCalculator.months_from_years from
src/pybank/pybank/calculators/FinancialCalculator.py: rejects non-positive
terms, then multiplies by 12 (BasicCalculator.multiply at integers). -/
def months_from_years (years : ℤ) : Except String ℤ :=
  if years ≤ 0 then .error "Loan term must be greater than zero."
  else .ok (years * 12)

/-- MortgageCalculator._validate_loan from
src/pybank/pybank/calculators/MortgageCalculator.py. -/
def validate_loan (loan : Loan) : Except String Unit :=
  if loan.principal ≤ 0 then .error "Loan principal must be greater than zero."
  else if loan.annual_interest_rate < 0 then .error "Interest rate cannot be negative."
  else if loan.years ≤ 0 then .error "Loan term must be greater than zero."
  else .ok ()

/-- MortgageCalculator.monthly_payment from
src/pybank/pybank/calculators/MortgageCalculator.py. -/
def monthly_payment (loan : Loan) : Except String ℚ :=
  match validate_loan loan with
  | .error e => .error e
  | .ok _ =>
    match calculate_monthly_interest_rate loan.annual_interest_rate with
    | .error e => .error e
    | .ok monthly_rate =>
      match months_from_years loan.years with
      | .error e => .error e
      | .ok months =>
        if monthly_rate = 0 then
          .ok (round2 (loan.principal / (months : ℚ)))
        else
          match divide (monthly_rate * (1 + monthly_rate) ^ months)
              ((1 + monthly_rate) ^ months - 1) with
          | .error e => .error e
          | .ok multiplier => .ok (round2 (loan.principal * multiplier))

/-- MortgageCalculator.loan_amount from
src/pybank/pybank/calculators/MortgageCalculator.py. -/
def loan_amount (monthly_payment annual_interest_rate : ℚ) (years : ℤ) :
    Except String ℚ :=
  if monthly_payment ≤ 0 then .error "Monthly payment must be greater than zero."
  else if annual_interest_rate < 0 then .error "Interest rate cannot be negative."
  else if years ≤ 0 then .error "Loan term must be greater than zero."
  else
    match calculate_monthly_interest_rate annual_interest_rate with
    | .error e => .error e
    | .ok monthly_rate =>
      match months_from_years years with
      | .error e => .error e
      | .ok months =>
        if monthly_rate = 0 then
          .ok (round2 (monthly_payment * (months : ℚ)))
        else
          .ok (round2 (monthly_payment * ((1 + monthly_rate) ^ months - 1) /
            (monthly_rate * (1 + monthly_rate) ^ months)))

/-- AffordabilityCalculator.DEFAULT_MAX_DTI from
src/pybank/pybank/calculators/AffordabilityCalculator.py. -/
def DEFAULT_MAX_DTI : ℚ := 36/100

/-- AffordabilityCalculator._validate_borrower from
src/pybank/pybank/calculators/AffordabilityCalculator.py. -/
def validate_borrower (borrower : Borrower) : Except String Unit :=
  if borrower.monthly_income ≤ 0 then .error "Monthly income must be greater than zero."
  else if borrower.monthly_debt < 0 then .error "Monthly debt cannot be negative."
  else .ok ()

/-- AffordabilityCalculator.max_monthly_housing_payment from
src/pybank/pybank/calculators/AffordabilityCalculator.py. -/
def max_monthly_housing_payment (borrower : Borrower) (max_dti : ℚ) :
    Except String ℚ :=
  match validate_borrower borrower with
  | .error e => .error e
  | .ok _ =>
    if ¬ (0 < max_dti ∧ max_dti ≤ 1) then .error "DTI must be between 0 and 1."
    else
      let max_total_debt := borrower.monthly_income * max_dti
      let max_housing_payment := max_total_debt - borrower.monthly_debt
      if max_housing_payment ≤ 0 then
        .error "Borrower cannot afford additional housing payment."
      else .ok (round2 max_housing_payment)

/-- AffordabilityCalculator.max_loan_amount from
src/pybank/pybank/calculators/AffordabilityCalculator.py. -/
def max_loan_amount (borrower : Borrower) (annual_interest_rate : ℚ)
    (years : ℤ) (max_dti : ℚ) : Except String ℚ :=
  match max_monthly_housing_payment borrower max_dti with
  | .error e => .error e
  | .ok max_payment => loan_amount max_payment annual_interest_rate years

end Pybank

/-! Spec-side formulas (the postconditions stated by the spec, written from
the words of the spec, to be compared with the code definitions above). -/

/-- The payment formula stated by the spec for monthly_payment: with
r = rate / 12 and n = years * 12, the payment is principal / n rounded to
two decimals when r = 0 and principal * (r * (1+r)^n / ((1+r)^n - 1))
rounded to two decimals when r is nonzero. -/
def monthlyPaymentSpec (loan : Loan) : ℚ :=
  let r := loan.annual_interest_rate / 12
  let n : ℤ := loan.years * 12
  if r = 0 then round2 (loan.principal / (n : ℚ))
  else round2 (loan.principal * (r * (1 + r) ^ n / ((1 + r) ^ n - 1)))

/-- The principal formula stated by the spec for loan_amount: with
r = rate / 12 and n = years * 12, the principal is payment * n rounded to
two decimals when r = 0 and payment * ((1+r)^n - 1) / (r * (1+r)^n)
rounded to two decimals when r is nonzero. -/
def loanAmountSpec (monthly_payment annual_interest_rate : ℚ) (years : ℤ) : ℚ :=
  let r := annual_interest_rate / 12
  let n : ℤ := years * 12
  if r = 0 then round2 (monthly_payment * (n : ℚ))
  else round2 (monthly_payment * ((1 + r) ^ n - 1) / (r * (1 + r) ^ n))

/-! Basic facts about the rounding function. -/

theorem pyRoundInt_close (q : ℚ) : |(pyRoundInt q : ℚ) - q| ≤ 1/2 := by
  have h0 := Int.fract_nonneg q
  have h1 := Int.fract_lt_one q
  simp only [Int.fract] at h0 h1
  unfold pyRoundInt
  simp only [Int.fract]
  split_ifs with hlt hgt hev
  · rw [abs_le]; constructor <;> linarith
  · rw [abs_le]; push_cast; constructor <;> linarith
  · rw [abs_le]; constructor <;> linarith
  · rw [abs_le]; push_cast; constructor <;> linarith

theorem round2_close (q : ℚ) : |round2 q - q| ≤ 1/200 := by
  have h := pyRoundInt_close (q * 100)
  rw [abs_le] at h ⊢
  unfold round2
  obtain ⟨h1, h2⟩ := h
  constructor <;> linarith

theorem pyRoundInt_le_floor_add_one (q : ℚ) : pyRoundInt q ≤ ⌊q⌋ + 1 := by
  unfold pyRoundInt; split_ifs <;> omega

theorem floor_le_pyRoundInt (q : ℚ) : ⌊q⌋ ≤ pyRoundInt q := by
  unfold pyRoundInt; split_ifs <;> omega

theorem pyRoundInt_le_of_le {q1 q2 : ℚ} (h : q1 ≤ q2) :
    pyRoundInt q1 ≤ pyRoundInt q2 := by
  have hub := pyRoundInt_le_floor_add_one q1
  have hlb := floor_le_pyRoundInt q2
  have hff := Int.floor_mono h
  rcases lt_or_eq_of_le hff with hlt | heq
  · omega
  · have hc : ((⌊q1⌋ : ℤ) : ℚ) = ((⌊q2⌋ : ℤ) : ℚ) := by rw [heq]
    unfold pyRoundInt
    simp only [Int.fract]
    split_ifs <;> first | omega | linarith [hc]

theorem round2_mono {q1 q2 : ℚ} (h : q1 ≤ q2) : round2 q1 ≤ round2 q2 := by
  have h1 := pyRoundInt_le_of_le (by linarith : q1 * 100 ≤ q2 * 100)
  have h2 : ((pyRoundInt (q1 * 100) : ℤ) : ℚ) ≤ ((pyRoundInt (q2 * 100) : ℤ) : ℚ) := by
    exact_mod_cast h1
  unfold round2
  linarith

/-! Characterizations of the validated paths through the calculators. -/

theorem calc_validate_loan_ok {loan : Loan} (hp : 0 < loan.principal)
    (hr : 0 ≤ loan.annual_interest_rate) (hy : 0 < loan.years) :
    Calc.validate_loan loan = .ok () := by
  unfold Calc.validate_loan
  rw [if_neg (not_le.mpr hp), if_neg (not_lt.mpr hr), if_neg (not_le.mpr hy)]

theorem validate_loan_same : Calc.validate_loan = Pybank.validate_loan := rfl

theorem calc_cmir_ok (r : ℚ) :
    Calc.calculate_monthly_interest_rate r = .ok (r / 12) := by
  unfold Calc.calculate_monthly_interest_rate Calc.divide
  rw [if_neg (by norm_num : ¬ (12:ℚ) = 0)]

theorem pybank_cmir_ok {r : ℚ} (hr : 0 ≤ r) :
    Pybank.calculate_monthly_interest_rate r = .ok (r / 12) := by
  unfold Pybank.calculate_monthly_interest_rate Pybank.divide
  rw [if_neg (not_lt.mpr hr), if_neg (by norm_num : ¬ (12:ℚ) = 0)]

theorem pybank_months_ok {y : ℤ} (hy : 0 < y) :
    Pybank.months_from_years y = .ok (y * 12) := by
  unfold Pybank.months_from_years
  rw [if_neg (not_le.mpr hy)]

/-- Geometric series bound: the annuity denominator grows at most linearly
against the compound factor. -/
theorem geom_bound {r : ℚ} (hr : 0 ≤ r) (n : ℕ) :
    (1 + r) ^ n - 1 ≤ (n : ℚ) * r * (1 + r) ^ n := by
  induction n with
  | zero => simp
  | succ k ih =>
    have hp : (0:ℚ) ≤ (1 + r) ^ k := pow_nonneg (by linarith) k
    have key : (0:ℚ) ≤ ((k:ℚ) + 1) * r * (1 + r) ^ k * r := by positivity
    have expand : ((k:ℚ) + 1) * r * ((1 + r) ^ k * (1 + r))
        = ((k:ℚ) + 1) * r * (1 + r) ^ k + ((k:ℚ) + 1) * r * (1 + r) ^ k * r := by
      ring
    calc (1 + r) ^ (k + 1) - 1
        = ((1 + r) ^ k - 1) + r * (1 + r) ^ k := by rw [pow_succ]; ring
      _ ≤ (k:ℚ) * r * (1 + r) ^ k + r * (1 + r) ^ k := by linarith
      _ = ((k:ℚ) + 1) * r * (1 + r) ^ k := by ring
      _ ≤ ((k:ℚ) + 1) * r * ((1 + r) ^ k * (1 + r)) := by rw [expand]; linarith
      _ = (↑(k + 1) : ℚ) * r * (1 + r) ^ (k + 1) := by rw [pow_succ]; push_cast; ring

theorem zpow_toNat_eq {a : ℚ} {m : ℤ} (hm : 0 ≤ m) : a ^ m = a ^ m.toNat := by
  rw [← zpow_natCast, Int.toNat_of_nonneg hm]

theorem one_lt_zpow_pos {r : ℚ} (hr : 0 < r) {m : ℤ} (hm : 0 < m) :
    1 < (1 + r) ^ m := by
  rw [zpow_toNat_eq hm.le]
  exact one_lt_pow₀ (by linarith) (by omega)

theorem zpow_pos_of_rate {r : ℚ} (hr : 0 ≤ r) (m : ℤ) : 0 < (1 + r) ^ m :=
  zpow_pos (by linarith) m

theorem annuity_den_ne {r : ℚ} (hmr : 0 < r / 12) {y : ℤ} (hy : 0 < y) :
    (1 + r / 12) ^ (y * 12 : ℤ) - 1 ≠ 0 := by
  have h1 : 1 < (1 + r / 12) ^ (y * 12 : ℤ) := one_lt_zpow_pos hmr (by omega)
  exact ne_of_gt (by linarith)

theorem calc_monthly_payment_eq {loan : Loan} (hp : 0 < loan.principal)
    (hr : 0 ≤ loan.annual_interest_rate) (hy : 0 < loan.years) :
    Calc.monthly_payment loan = .ok (monthlyPaymentSpec loan) := by
  have hv := calc_validate_loan_ok hp hr hy
  have hc := calc_cmir_ok loan.annual_interest_rate
  unfold Calc.monthly_payment
  rw [hv, hc]
  by_cases h0 : loan.annual_interest_rate / 12 = 0
  · simp [h0, monthlyPaymentSpec, Calc.months_from_years]
  · have hmr : 0 < loan.annual_interest_rate / 12 :=
      lt_of_le_of_ne (by positivity) (Ne.symm h0)
    have hden := annuity_den_ne (r := loan.annual_interest_rate) hmr hy
    simp [h0, monthlyPaymentSpec, Calc.months_from_years, Calc.divide, hden]

theorem pybank_monthly_payment_eq {loan : Loan} (hp : 0 < loan.principal)
    (hr : 0 ≤ loan.annual_interest_rate) (hy : 0 < loan.years) :
    Pybank.monthly_payment loan = .ok (monthlyPaymentSpec loan) := by
  have hv : Pybank.validate_loan loan = .ok () := by
    rw [← validate_loan_same]; exact calc_validate_loan_ok hp hr hy
  have hc := pybank_cmir_ok hr
  have hm := pybank_months_ok hy
  unfold Pybank.monthly_payment
  rw [hv, hc, hm]
  by_cases h0 : loan.annual_interest_rate / 12 = 0
  · simp [h0, monthlyPaymentSpec]
  · have hmr : 0 < loan.annual_interest_rate / 12 :=
      lt_of_le_of_ne (by positivity) (Ne.symm h0)
    have hden := annuity_den_ne (r := loan.annual_interest_rate) hmr hy
    simp [h0, monthlyPaymentSpec, Pybank.divide, hden]

theorem calc_loan_amount_eq {mp r : ℚ} {y : ℤ} (hmp : 0 < mp) (hr : 0 ≤ r)
    (hy : 0 < y) : Calc.loan_amount mp r y = .ok (loanAmountSpec mp r y) := by
  unfold Calc.loan_amount
  rw [if_neg (not_le.mpr hmp), if_neg (not_lt.mpr hr), if_neg (not_le.mpr hy),
    calc_cmir_ok]
  by_cases h0 : r / 12 = 0
  · simp [h0, loanAmountSpec, Calc.months_from_years]
  · simp [h0, loanAmountSpec, Calc.months_from_years]

theorem pybank_loan_amount_eq {mp r : ℚ} {y : ℤ} (hmp : 0 < mp) (hr : 0 ≤ r)
    (hy : 0 < y) : Pybank.loan_amount mp r y = .ok (loanAmountSpec mp r y) := by
  unfold Pybank.loan_amount
  rw [if_neg (not_le.mpr hmp), if_neg (not_lt.mpr hr), if_neg (not_le.mpr hy),
    pybank_cmir_ok hr, pybank_months_ok hy]
  by_cases h0 : r / 12 = 0
  · simp [h0, loanAmountSpec]
  · simp [h0, loanAmountSpec]

/-- The two loan_amount implementations are extensionally equal: the extra
validation inside the pybank unit-conversion helpers is unreachable after the
guards that loan_amount itself performs. -/
theorem loan_amount_agree (mp r : ℚ) (y : ℤ) :
    Calc.loan_amount mp r y = Pybank.loan_amount mp r y := by
  unfold Calc.loan_amount Pybank.loan_amount
  split_ifs with h1 h2 h3
  · rfl
  · rfl
  · rfl
  · rw [calc_cmir_ok, pybank_cmir_ok (not_lt.mp h2),
      pybank_months_ok (by omega : 0 < y)]
    by_cases h0 : r / 12 = 0
    · simp [h0, Calc.months_from_years]
    · simp [h0, Calc.months_from_years]

theorem calc_mhp_eq {b : Borrower} {d : ℚ} (hi : 0 < b.monthly_income)
    (hd : 0 ≤ b.monthly_debt) (h1 : 0 < d) (h2 : d ≤ 1) :
    Calc.max_monthly_housing_payment b d =
      if b.monthly_income * d - b.monthly_debt ≤ 0 then
        .error "Borrower cannot afford additional housing payment."
      else .ok (round2 (b.monthly_income * d - b.monthly_debt)) := by
  have hv : Calc.validate_borrower b = .ok () := by
    unfold Calc.validate_borrower
    rw [if_neg (not_le.mpr hi), if_neg (not_lt.mpr hd)]
  have hdti : ¬¬(0 < d ∧ d ≤ 1) := not_not_intro ⟨h1, h2⟩
  unfold Calc.max_monthly_housing_payment
  rw [hv]
  simp [hdti]

theorem mhp_agree (b : Borrower) (d : ℚ) :
    Calc.max_monthly_housing_payment b d = Pybank.max_monthly_housing_payment b d := rfl

/-! Concrete evaluations at the inputs named by the spec. -/

theorem mp_eval_standard :
    Calc.monthly_payment ⟨300000, 6/100, 30⟩ = .ok (179865/100) := by
  rw [calc_monthly_payment_eq (by norm_num) (by norm_num) (by norm_num)]
  congr 1
  simp only [monthlyPaymentSpec]
  norm_num [round2, pyRoundInt, Int.fract]

theorem pybank_mp_eval_standard :
    Pybank.monthly_payment ⟨300000, 6/100, 30⟩ = .ok (179865/100) := by
  rw [pybank_monthly_payment_eq (by norm_num) (by norm_num) (by norm_num)]
  congr 1
  simp only [monthlyPaymentSpec]
  norm_num [round2, pyRoundInt, Int.fract]

theorem la_eval_1800 :
    Calc.loan_amount 1800 (6/100) 30 = .ok (30022491/100) := by
  rw [calc_loan_amount_eq (by norm_num) (by norm_num) (by norm_num)]
  congr 1
  simp only [loanAmountSpec]
  norm_num [round2, pyRoundInt, Int.fract]

theorem mhp_eval_affordable :
    Calc.max_monthly_housing_payment ⟨6000, 500⟩ Calc.DEFAULT_MAX_DTI = .ok 1660 := by
  rw [calc_mhp_eq (by norm_num) (by norm_num)
    (by norm_num [Calc.DEFAULT_MAX_DTI]) (by norm_num [Calc.DEFAULT_MAX_DTI])]
  norm_num [Calc.DEFAULT_MAX_DTI, round2, pyRoundInt, Int.fract]

theorem mhp_eval_unaffordable :
    Calc.max_monthly_housing_payment ⟨1000, 400⟩ Calc.DEFAULT_MAX_DTI =
      .error "Borrower cannot afford additional housing payment." := by
  rw [calc_mhp_eq (by norm_num) (by norm_num)
    (by norm_num [Calc.DEFAULT_MAX_DTI]) (by norm_num [Calc.DEFAULT_MAX_DTI])]
  norm_num [Calc.DEFAULT_MAX_DTI]

/-- Core round-trip bound at the spec level: feeding the rounded payment back
through the principal formula recovers the principal up to the rounding of
the payment (amplified by at most the number of months) plus the final
rounding. -/
theorem spec_round_trip {p r : ℚ} {y : ℤ} (_hp : 0 < p) (hr : 0 ≤ r) (hy : 0 < y) :
    |loanAmountSpec (monthlyPaymentSpec ⟨p, r, y⟩) r y - p|
      ≤ ((y * 12 + 1 : ℤ) : ℚ) / 200 := by
  have hMpos : (0:ℚ) < ((y * 12 : ℤ) : ℚ) := by
    exact_mod_cast (by omega : (0:ℤ) < y * 12)
  have hM1 : ((y * 12 + 1 : ℤ) : ℚ) = ((y * 12 : ℤ) : ℚ) + 1 := by push_cast; ring
  by_cases h0 : r / 12 = 0
  · simp only [monthlyPaymentSpec, loanAmountSpec, if_pos h0]
    set M : ℚ := ((y * 12 : ℤ) : ℚ) with hMdef
    set pay := round2 (p / M) with hpay
    have hd1 := round2_close (p / M)
    have hd2 := round2_close (pay * M)
    rw [abs_le] at hd1 hd2 ⊢
    obtain ⟨a1, a2⟩ := hd1
    obtain ⟨b1, b2⟩ := hd2
    have hid : p / M * M = p := div_mul_cancel₀ p (ne_of_gt hMpos)
    have e1 : (pay - p / M) * M = pay * M - p := by rw [sub_mul, hid]
    have h3 : (pay - p / M) * M ≤ 1/200 * M :=
      mul_le_mul_of_nonneg_right (by linarith) hMpos.le
    have h4 : -(1/200) * M ≤ (pay - p / M) * M :=
      mul_le_mul_of_nonneg_right (by linarith) hMpos.le
    rw [hM1]
    constructor <;> linarith
  · have hmr : 0 < r / 12 :=
      lt_of_le_of_ne (div_nonneg hr (by norm_num)) (Ne.symm h0)
    have hN0 : (0:ℤ) ≤ y * 12 := by omega
    have hzp : (1 + r/12) ^ (y * 12 : ℤ) = (1 + r/12) ^ ((y * 12 : ℤ).toNat) :=
      zpow_toNat_eq hN0
    simp only [monthlyPaymentSpec, loanAmountSpec, if_neg h0]
    rw [hzp]
    set X := (1 + r/12) ^ ((y * 12 : ℤ).toNat) with hXdef
    have hXpos : (0:ℚ) < X := pow_pos (by linarith) _
    have hX1 : 1 < X := one_lt_pow₀ (by linarith) (by omega : (y * 12 : ℤ).toNat ≠ 0)
    have hden : 0 < r/12 * X := mul_pos hmr hXpos
    have hNQ : (((y * 12 : ℤ).toNat : ℕ) : ℚ) = ((y * 12 : ℤ) : ℚ) := by
      exact_mod_cast Int.toNat_of_nonneg hN0
    have hGle : (X - 1) / (r/12 * X) ≤ ((y * 12 : ℤ) : ℚ) := by
      rw [div_le_iff₀ hden]
      have hg := geom_bound (le_of_lt hmr) ((y * 12 : ℤ).toNat)
      rw [hNQ] at hg
      linarith
    have hGpos : 0 < (X - 1) / (r/12 * X) := div_pos (by linarith) hden
    set A := p * (r/12 * X / (X - 1)) with hAdef
    set pay := round2 A with hpay
    set G := (X - 1) / (r/12 * X) with hGdef
    set B := pay * (X - 1) / (r/12 * X) with hBdef
    have hcancel : r/12 * X / (X - 1) * ((X - 1) / (r/12 * X)) = 1 := by
      rw [div_mul_div_comm, mul_comm (r/12 * X) (X - 1)]
      exact div_self (ne_of_gt (mul_pos (by linarith) hden))
    have hAG : A * G = p := by
      rw [hAdef, hGdef, mul_assoc, hcancel, mul_one]
    have hpayG : pay * G = B := by
      rw [hBdef, hGdef, mul_div_assoc]
    have hB : B = p + (pay - A) * G := by
      rw [sub_mul, hAG, hpayG]
      ring
    have hd1 := round2_close A
    have hd2 := round2_close B
    rw [abs_le] at hd1 hd2 ⊢
    obtain ⟨a1, a2⟩ := hd1
    obtain ⟨b1, b2⟩ := hd2
    have p1 : (pay - A) * G ≤ 1/200 * G :=
      mul_le_mul_of_nonneg_right (by linarith) hGpos.le
    have p2 : -(1/200) * G ≤ (pay - A) * G :=
      mul_le_mul_of_nonneg_right (by linarith) hGpos.le
    have p3 : 1/200 * G ≤ 1/200 * ((y * 12 : ℤ) : ℚ) := by linarith
    have p4 : -(1/200) * ((y * 12 : ℤ) : ℚ) ≤ -(1/200) * G := by linarith
    rw [hM1]
    constructor <;> linarith

/-- Monotonicity of the spec-level principal formula in the payment. -/
theorem loanAmountSpec_mono {r : ℚ} {y : ℤ} (hr : 0 ≤ r) (hy : 0 < y)
    {p1 p2 : ℚ} (h12 : p1 ≤ p2) :
    loanAmountSpec p1 r y ≤ loanAmountSpec p2 r y := by
  have hMnn : (0:ℚ) ≤ ((y * 12 : ℤ) : ℚ) := by
    exact_mod_cast (by omega : (0:ℤ) ≤ y * 12)
  unfold loanAmountSpec
  by_cases h0 : r / 12 = 0
  · simp only [if_pos h0]
    exact round2_mono (mul_le_mul_of_nonneg_right h12 hMnn)
  · simp only [if_neg h0]
    have hmr : 0 < r / 12 :=
      lt_of_le_of_ne (div_nonneg hr (by norm_num)) (Ne.symm h0)
    have hXpos : 0 < (1 + r/12) ^ (y * 12 : ℤ) :=
      zpow_pos_of_rate (div_nonneg hr (by norm_num)) _
    have hX1 : 1 < (1 + r/12) ^ (y * 12 : ℤ) := one_lt_zpow_pos hmr (by omega)
    have hden : 0 < r/12 * (1 + r/12) ^ (y * 12 : ℤ) := mul_pos hmr hXpos
    apply round2_mono
    rw [div_le_div_iff_of_pos_right hden]
    exact mul_le_mul_of_nonneg_right h12 (by linarith)

/-! Claims. -/

/-- Claim C2: monthly_payment postcondition.  For every loan with positive
principal, nonnegative rate and positive term, both implementations return
exactly the spec formula (principal / n rounded to 2 decimals at zero rate,
principal times the annuity factor rounded to 2 decimals otherwise, with
r = rate / 12 and n = years * 12); in particular the standard loan
(300000, 0.06, 30) yields 1798.65. -/
theorem monthly_payment_postcondition :
    (∀ loan : Loan, 0 < loan.principal → 0 ≤ loan.annual_interest_rate →
      0 < loan.years →
      Calc.monthly_payment loan = .ok (monthlyPaymentSpec loan) ∧
      Pybank.monthly_payment loan = .ok (monthlyPaymentSpec loan)) ∧
    Calc.monthly_payment ⟨300000, 6/100, 30⟩ = .ok (179865/100) ∧
    Pybank.monthly_payment ⟨300000, 6/100, 30⟩ = .ok (179865/100) :=
  ⟨fun _ hp hr hy =>
    ⟨calc_monthly_payment_eq hp hr hy, pybank_monthly_payment_eq hp hr hy⟩,
  mp_eval_standard, pybank_mp_eval_standard⟩

/-- Witness for claim C2 at the standard loan. -/
theorem monthly_payment_postcondition_witness :
    Calc.monthly_payment ⟨300000, 6/100, 30⟩
        = .ok (monthlyPaymentSpec ⟨300000, 6/100, 30⟩) ∧
    Pybank.monthly_payment ⟨300000, 6/100, 30⟩
        = .ok (monthlyPaymentSpec ⟨300000, 6/100, 30⟩) :=
  monthly_payment_postcondition.1 ⟨300000, 6/100, 30⟩ (by norm_num) (by norm_num)
    (by norm_num)

/-- Claim C3: max_monthly_housing_payment raises the Unaffordable error
exactly when income * max_dti - debt is nonpositive, and otherwise returns
that difference rounded to 2 decimals; Borrower(6000, 500) at the default
DTI yields 1660.00 and Borrower(1000, 400) raises Unaffordable. -/
theorem max_monthly_housing_payment_raises_iff :
    (∀ (b : Borrower) (d : ℚ), 0 < b.monthly_income → 0 ≤ b.monthly_debt →
      0 < d → d ≤ 1 →
      (Calc.max_monthly_housing_payment b d =
          .error "Borrower cannot afford additional housing payment." ↔
        b.monthly_income * d - b.monthly_debt ≤ 0) ∧
      (0 < b.monthly_income * d - b.monthly_debt →
        Calc.max_monthly_housing_payment b d =
          .ok (round2 (b.monthly_income * d - b.monthly_debt))) ∧
      (Pybank.max_monthly_housing_payment b d =
          .error "Borrower cannot afford additional housing payment." ↔
        b.monthly_income * d - b.monthly_debt ≤ 0) ∧
      (0 < b.monthly_income * d - b.monthly_debt →
        Pybank.max_monthly_housing_payment b d =
          .ok (round2 (b.monthly_income * d - b.monthly_debt)))) ∧
    Calc.max_monthly_housing_payment ⟨6000, 500⟩ Calc.DEFAULT_MAX_DTI = .ok 1660 ∧
    Pybank.max_monthly_housing_payment ⟨6000, 500⟩ Pybank.DEFAULT_MAX_DTI = .ok 1660 ∧
    Calc.max_monthly_housing_payment ⟨1000, 400⟩ Calc.DEFAULT_MAX_DTI =
      .error "Borrower cannot afford additional housing payment." ∧
    Pybank.max_monthly_housing_payment ⟨1000, 400⟩ Pybank.DEFAULT_MAX_DTI =
      .error "Borrower cannot afford additional housing payment." := by
  refine ⟨?_, mhp_eval_affordable, ?_, mhp_eval_unaffordable, ?_⟩
  · intro b d hi hd h1 h2
    have he := calc_mhp_eq hi hd h1 h2
    have hep : Pybank.max_monthly_housing_payment b d =
        Calc.max_monthly_housing_payment b d := (mhp_agree b d).symm
    refine ⟨?_, ?_, ?_, ?_⟩
    · rw [he]; by_cases hc : b.monthly_income * d - b.monthly_debt ≤ 0 <;>
        simp [hc]
    · intro hpos; rw [he, if_neg (not_le.mpr hpos)]
    · rw [hep, he]; by_cases hc : b.monthly_income * d - b.monthly_debt ≤ 0 <;>
        simp [hc]
    · intro hpos; rw [hep, he, if_neg (not_le.mpr hpos)]
  · rw [← mhp_agree]; exact mhp_eval_affordable
  · rw [← mhp_agree]; exact mhp_eval_unaffordable

/-- Witness for claim C3 at Borrower(6000, 500) and the default DTI. -/
theorem max_monthly_housing_payment_raises_iff_witness :
    Calc.max_monthly_housing_payment ⟨6000, 500⟩ (36/100) =
      .ok (round2 ((6000:ℚ) * (36/100) - 500)) :=
  (max_monthly_housing_payment_raises_iff.1 ⟨6000, 500⟩ (36/100) (by norm_num)
    (by norm_num) (by norm_num) (by norm_num)).2.1 (by norm_num)

/-- Claim C4: max_loan_amount produces exactly the same outcome as calling
max_monthly_housing_payment and then loan_amount manually in sequence with
identical arguments, errors propagating unchanged. -/
theorem max_loan_amount_composition :
    ∀ (b : Borrower) (r : ℚ) (y : ℤ) (d : ℚ),
      Calc.max_loan_amount b r y d =
        (match Calc.max_monthly_housing_payment b d with
          | .error e => .error e
          | .ok p => Calc.loan_amount p r y) ∧
      Pybank.max_loan_amount b r y d =
        (match Pybank.max_monthly_housing_payment b d with
          | .error e => .error e
          | .ok p => Pybank.loan_amount p r y) :=
  fun _ _ _ _ => ⟨rfl, rfl⟩

/-- Claim C6: divide fails with the division-by-zero error exactly when the
divisor is zero, and otherwise returns the quotient, in both trees. -/
theorem divide_raises_iff :
    ∀ x y : ℚ,
      ((Calc.divide x y = .error "Cannot divide by zero.") ↔ y = 0) ∧
      (y ≠ 0 → Calc.divide x y = .ok (x / y)) ∧
      ((Pybank.divide x y = .error "Cannot divide by zero.") ↔ y = 0) ∧
      (y ≠ 0 → Pybank.divide x y = .ok (x / y)) := by
  intro x y
  refine ⟨?_, ?_, ?_, ?_⟩
  · by_cases hy : y = 0 <;> simp [Calc.divide, hy]
  · intro hy; simp [Calc.divide, hy]
  · by_cases hy : y = 0 <;> simp [Pybank.divide, hy]
  · intro hy; simp [Pybank.divide, hy]

/-- Witness for claim C6 at divide(10, 2). -/
theorem divide_raises_iff_witness :
    Calc.divide 10 2 = .ok (10 / 2) ∧ Pybank.divide 10 2 = .ok (10 / 2) :=
  ⟨(divide_raises_iff 10 2).2.1 (by norm_num),
   (divide_raises_iff 10 2).2.2.2 (by norm_num)⟩

/-- Claim C9: for every loan satisfying the validated preconditions,
monthly_payment never produces the division-by-zero error, in either tree:
the zero-rate divisor n = years * 12 is nonzero and the nonzero-rate
denominator (1+r)^n - 1 is nonzero. -/
theorem monthly_payment_no_division_error :
    ∀ loan : Loan, 0 < loan.principal → 0 ≤ loan.annual_interest_rate →
      0 < loan.years →
      Calc.monthly_payment loan ≠ .error "Cannot divide by zero." ∧
      Pybank.monthly_payment loan ≠ .error "Cannot divide by zero." := by
  intro loan hp hr hy
  constructor
  · rw [calc_monthly_payment_eq hp hr hy]; simp
  · rw [pybank_monthly_payment_eq hp hr hy]; simp

/-- Witness for claim C9 at the standard loan. -/
theorem monthly_payment_no_division_error_witness :
    Calc.monthly_payment ⟨300000, 6/100, 30⟩ ≠ .error "Cannot divide by zero." ∧
    Pybank.monthly_payment ⟨300000, 6/100, 30⟩ ≠ .error "Cannot divide by zero." :=
  monthly_payment_no_division_error ⟨300000, 6/100, 30⟩ (by norm_num) (by norm_num)
    (by norm_num)

/-- Claim C10: loan_amount is monotone non-decreasing in the payment
argument: for fixed nonnegative rate and positive term, payments
0 < p1 ≤ p2 give successful results in both trees with the value at p1 at
most the value at p2. -/
theorem loan_amount_monotone :
    ∀ (r : ℚ) (y : ℤ) (p1 p2 : ℚ), 0 ≤ r → 0 < y → 0 < p1 → p1 ≤ p2 →
      Calc.loan_amount p1 r y = .ok (loanAmountSpec p1 r y) ∧
      Calc.loan_amount p2 r y = .ok (loanAmountSpec p2 r y) ∧
      Pybank.loan_amount p1 r y = .ok (loanAmountSpec p1 r y) ∧
      Pybank.loan_amount p2 r y = .ok (loanAmountSpec p2 r y) ∧
      loanAmountSpec p1 r y ≤ loanAmountSpec p2 r y := by
  intro r y p1 p2 hr hy h1 h12
  exact ⟨calc_loan_amount_eq h1 hr hy,
    calc_loan_amount_eq (lt_of_lt_of_le h1 h12) hr hy,
    pybank_loan_amount_eq h1 hr hy,
    pybank_loan_amount_eq (lt_of_lt_of_le h1 h12) hr hy,
    loanAmountSpec_mono hr hy h12⟩

/-- Witness for claim C10 at payments 1700 and 1800. -/
theorem loan_amount_monotone_witness :
    Calc.loan_amount 1700 (6/100) 30 = .ok (loanAmountSpec 1700 (6/100) 30) ∧
    Calc.loan_amount 1800 (6/100) 30 = .ok (loanAmountSpec 1800 (6/100) 30) ∧
    Pybank.loan_amount 1700 (6/100) 30 = .ok (loanAmountSpec 1700 (6/100) 30) ∧
    Pybank.loan_amount 1800 (6/100) 30 = .ok (loanAmountSpec 1800 (6/100) 30) ∧
    loanAmountSpec 1700 (6/100) 30 ≤ loanAmountSpec 1800 (6/100) 30 :=
  loan_amount_monotone (6/100) 30 1700 1800 (by norm_num) (by norm_num)
    (by norm_num) (by norm_num)

/-- Claim C7, counterexample: the src/calculators implementation of the
monthly-rate conversion performs no validation, so at annual rate -1 it
returns -1/12 instead of failing with the InvalidInput error. -/
theorem monthly_rate_no_validation_counterexample :
    Calc.calculate_monthly_interest_rate (-1) = .ok (-1 / 12) ∧
    Calc.calculate_monthly_interest_rate (-1) ≠
      .error "Interest rate cannot be negative." := by
  constructor
  · exact calc_cmir_ok (-1)
  · rw [calc_cmir_ok]; simp

/-- Claim C7, amended: the pybank implementation fails with the InvalidInput
error exactly on negative rates and returns rate / 12 on nonnegative rates;
the src/calculators implementation performs no validation and returns
rate / 12 for every rate. -/
theorem monthly_rate_validation :
    (∀ r : ℚ, r < 0 → Pybank.calculate_monthly_interest_rate r =
      .error "Interest rate cannot be negative.") ∧
    (∀ r : ℚ, 0 ≤ r → Pybank.calculate_monthly_interest_rate r = .ok (r / 12)) ∧
    (∀ r : ℚ, Calc.calculate_monthly_interest_rate r = .ok (r / 12)) := by
  refine ⟨?_, ?_, calc_cmir_ok⟩
  · intro r hr; unfold Pybank.calculate_monthly_interest_rate; rw [if_pos hr]
  · intro r hr; exact pybank_cmir_ok hr

/-- Witness for claim C7 at rates -0.05 and 0.12. -/
theorem monthly_rate_validation_witness :
    Pybank.calculate_monthly_interest_rate (-5/100) =
      .error "Interest rate cannot be negative." ∧
    Pybank.calculate_monthly_interest_rate (12/100) = .ok ((12/100) / 12) :=
  ⟨monthly_rate_validation.1 (-5/100) (by norm_num),
   monthly_rate_validation.2.1 (12/100) (by norm_num)⟩

/-- Claim C8, counterexample: the src/calculators implementation of the
years-to-months conversion performs no validation and cannot fail: at
years = 0 it returns 0 instead of failing with the InvalidInput error. -/
theorem months_no_validation_counterexample :
    Calc.months_from_years 0 = 0 := rfl

/-- Claim C8, amended: the pybank implementation fails with the InvalidInput
error exactly on non-positive terms and returns years * 12 on positive
terms; the src/calculators implementation is total and returns years * 12
for every integer; months(30) = 360 in both. -/
theorem months_validation :
    (∀ y : ℤ, y ≤ 0 → Pybank.months_from_years y =
      .error "Loan term must be greater than zero.") ∧
    (∀ y : ℤ, 0 < y → Pybank.months_from_years y = .ok (y * 12)) ∧
    (∀ y : ℤ, Calc.months_from_years y = y * 12) ∧
    Pybank.months_from_years 30 = .ok 360 ∧
    Calc.months_from_years 30 = 360 := by
  refine ⟨?_, ?_, fun y => rfl, ?_, rfl⟩
  · intro y hy; unfold Pybank.months_from_years; rw [if_pos hy]
  · intro y hy; exact pybank_months_ok hy
  · rw [pybank_months_ok (show (0:ℤ) < 30 by norm_num)]; norm_num

/-- Witness for claim C8 at years 0 and 30. -/
theorem months_validation_witness :
    Pybank.months_from_years 0 = .error "Loan term must be greater than zero." ∧
    Pybank.months_from_years 30 = .ok (30 * 12) :=
  ⟨months_validation.1 0 (by norm_num), months_validation.2.1 30 (by norm_num)⟩

/-- Claim C5, counterexample: on the cited input loan_amount(1800, 0.06, 30)
the two implementations return the same value, not different ones. -/
theorem loan_amount_implementations_agree_at_1800 :
    Calc.loan_amount 1800 (6/100) 30 = Pybank.loan_amount 1800 (6/100) 30 :=
  loan_amount_agree 1800 (6/100) 30

/-- Claim C5, amended: the two loan_amount implementations are extensionally
equal; at (1800, 0.06, 30) both return 300224.91, and in particular neither
returns the 300229.29 recorded in the src/calculators docstring: the
cent-level disagreement in the source is between that docstring and the
computation, not between the two implementations. -/
theorem loan_amount_implementations_agree :
    (∀ (mp r : ℚ) (y : ℤ), Calc.loan_amount mp r y = Pybank.loan_amount mp r y) ∧
    Calc.loan_amount 1800 (6/100) 30 = .ok (30022491/100) ∧
    Pybank.loan_amount 1800 (6/100) 30 = .ok (30022491/100) ∧
    Calc.loan_amount 1800 (6/100) 30 ≠ .ok (30022929/100) := by
  refine ⟨loan_amount_agree, la_eval_1800, ?_, ?_⟩
  · rw [← loan_amount_agree]; exact la_eval_1800
  · rw [la_eval_1800]; simp only [ne_eq, Except.ok.injEq]; norm_num

/-- Claim C1, counterexample: at principal 0.004, rate 0, years 1 the
intermediate payment rounds to 0, and loan_amount applied to it fails
instead of returning the principal. -/
theorem round_trip_fails_for_tiny_principal :
    Calc.monthly_payment ⟨1/250, 0, 1⟩ = .ok 0 ∧
    Calc.loan_amount 0 0 1 = .error "Monthly payment must be greater than zero." := by
  constructor
  · rw [calc_monthly_payment_eq (by norm_num) (by norm_num) (by norm_num)]
    congr 1
    simp only [monthlyPaymentSpec]
    norm_num [round2, pyRoundInt, Int.fract]
  · unfold Calc.loan_amount
    norm_num

/-- Claim C1, amended: for every loan with positive principal, nonnegative
rate and positive term whose computed monthly payment is positive after the
2-decimal rounding, feeding that payment back through loan_amount succeeds
in both trees and returns the principal up to the tolerance induced by the
rounding of the intermediate payment, namely (12 * years + 1) / 200. -/
theorem round_trip_law :
    ∀ (loan : Loan) (pay : ℚ),
      0 < loan.principal → 0 ≤ loan.annual_interest_rate → 0 < loan.years →
      Calc.monthly_payment loan = .ok pay → 0 < pay →
      Pybank.monthly_payment loan = .ok pay ∧
      Calc.loan_amount pay loan.annual_interest_rate loan.years
        = .ok (loanAmountSpec pay loan.annual_interest_rate loan.years) ∧
      Pybank.loan_amount pay loan.annual_interest_rate loan.years
        = .ok (loanAmountSpec pay loan.annual_interest_rate loan.years) ∧
      |loanAmountSpec pay loan.annual_interest_rate loan.years - loan.principal|
        ≤ ((loan.years * 12 + 1 : ℤ) : ℚ) / 200 := by
  intro loan pay hp hr hy hmp hpay
  have hspec := calc_monthly_payment_eq hp hr hy
  rw [hmp] at hspec
  have hps : pay = monthlyPaymentSpec loan := Except.ok.inj hspec
  refine ⟨?_, calc_loan_amount_eq hpay hr hy, pybank_loan_amount_eq hpay hr hy, ?_⟩
  · rw [pybank_monthly_payment_eq hp hr hy, hps]
  · rw [hps]
    exact spec_round_trip hp hr hy

/-- Witness for claim C1 at the standard loan and its computed payment. -/
theorem round_trip_law_witness :
    Pybank.monthly_payment ⟨300000, 6/100, 30⟩ = .ok (179865/100) ∧
    Calc.loan_amount (179865/100) (6/100) 30
      = .ok (loanAmountSpec (179865/100) (6/100) 30) ∧
    Pybank.loan_amount (179865/100) (6/100) 30
      = .ok (loanAmountSpec (179865/100) (6/100) 30) ∧
    |loanAmountSpec (179865/100) (6/100) 30 - 300000|
      ≤ ((30 * 12 + 1 : ℤ) : ℚ) / 200 :=
  round_trip_law ⟨300000, 6/100, 30⟩ (179865/100) (by norm_num) (by norm_num)
    (by norm_num) mp_eval_standard (by norm_num)

end PyBank
